import Mathlib

/-!
Verification of the monitoring service (`app/services/monitoring_service.py`).

The development shallowly embeds the pure state and event behaviour of the
`MonitoringService` class:

* the active-user tracker (`_track_user_activity`, `_get_active_users_count`),
  whose state is the `active_users` dict (here an association list with
  distinct keys, mirroring a Python dict) together with the
  `active_user_timeout` (900 seconds by default);
* the telemetry facade (`track_custom_event`, `track_database_query`,
  `track_user_session`), the Flask `after_request` hook and the global
  `handle_exception` error handler, whose observable behaviour is modelled as
  a list of telemetry events plus an explicit exception channel (`Except`);
* the observable-gauge callbacks (`_get_cpu_usage`, `_get_memory_usage`,
  `_get_disk_usage` and the active-users gauge) and the flush that drains
  them.

Timestamps are rationals (Python `time.time()` floats); exceptions raised by
the third-party SDK / sampler calls are injected through explicit `Except`
parameters or `Bool` fault flags, and the `try/except` blocks of the source
are modelled by explicit handlers on that channel.
-/

/-! ## Active-user tracker (`_track_user_activity` / `_get_active_users_count`) -/

abbrev UserId := Nat

abbrev Timestamp := ℚ

/-- The tracker slice of `MonitoringService` state: the `active_users` dict
(`{user_id: last_activity_timestamp}`, an insertion-ordered association list
with distinct keys, as a Python dict) and `active_user_timeout`. -/
structure TrackerState where
  active_users : List (UserId × Timestamp)
  active_user_timeout : ℚ
deriving Repr, DecidableEq

/-- `__init__`: `self.active_users = {}`, `self.active_user_timeout = 900`. -/
def initialTracker : TrackerState :=
  { active_users := [], active_user_timeout := 900 }

/-- An empty tracker with an arbitrary timeout configuration. -/
def mkTracker (timeout : ℚ) : TrackerState :=
  { active_users := [], active_user_timeout := timeout }

/-- Python dict assignment `d[u] = t`: replace in place if the key is present
(dicts keep insertion order), otherwise append the new binding. -/
def dictSet (m : List (UserId × Timestamp)) (u : UserId) (t : Timestamp) :
    List (UserId × Timestamp) :=
  if m.any (fun p => decide (p.1 = u)) then
    m.map (fun p => if p.1 = u then (u, t) else p)
  else
    m ++ [(u, t)]

/-- `_track_user_activity(user_id)`: `self.active_users[user_id] = time.time()`,
then build the list of users with `current_time - last_active > timeout`
(`current_time` is a second clock read, hence the two time parameters) and pop
them. Keeping the complement of the popped set is expressed as a filter. -/
def _track_user_activity (s : TrackerState) (user_id : UserId)
    (tSet tNow : Timestamp) : TrackerState :=
  let m := (dictSet s.active_users user_id tSet).filter
    (fun p => !decide (tNow - p.2 > s.active_user_timeout))
  { s with active_users := m }

/-- The spec's `touch(identity)`: one activity-tracking call at a single
instant (both clock reads of `_track_user_activity` return `t`). -/
def touch (s : TrackerState) (user_id : UserId) (t : Timestamp) : TrackerState :=
  _track_user_activity s user_id t t

/-- The pure core of `_get_active_users_count`: rebuild `self.active_users`
keeping exactly the entries with `current_time - last_active <= timeout`, and
yield the size of the surviving dict. -/
def _get_active_users_count (s : TrackerState) (tNow : Timestamp) :
    TrackerState × Nat :=
  let m := s.active_users.filter
    (fun p => decide (tNow - p.2 ≤ s.active_user_timeout))
  ({ s with active_users := m }, m.length)

/-- One iteration of the `monitor_system_health` background loop: the body
only sleeps (metrics are collected via the observable callbacks), so it never
mutates the tracker state — there is no scheduled eviction sweep. -/
def monitor_system_health_tick (s : TrackerState) : TrackerState := s

/-- Run a sequence of `touch` events (identity, instant) from a start state. -/
def runTrace (s : TrackerState) (tr : List (UserId × Timestamp)) : TrackerState :=
  tr.foldl (fun acc e => touch acc e.1 e.2) s

/-- The instant of the most recent touch of `uid` in a trace, if any. -/
def lastTouch (tr : List (UserId × Timestamp)) (uid : UserId) : Option Timestamp :=
  tr.foldl (fun acc e => if e.1 = uid then some e.2 else acc) none

/-- The distinct identities of a trace whose most recent touch lies within the
`timeout` window ending at `t`. -/
def activeIds (tr : List (UserId × Timestamp)) (t timeout : ℚ) : List UserId :=
  (tr.map Prod.fst).dedup.filter (fun uid =>
    match lastTouch tr uid with
    | some τ => decide (t - τ ≤ timeout)
    | none => false)

/-! ## Telemetry events and facade state -/

/-- Attribute values attached to spans and metric data points
(`set_attribute` / `record` / `add` receive strings, ints, floats, bools). -/
inductive AttrVal
  | str (s : String)
  | int (n : Int)
  | rat (q : ℚ)
  | boolean (b : Bool)
deriving Repr, DecidableEq

/-- Observable telemetry actions performed by the service: span lifecycle and
attributes, an exception recorded on a span, histogram records and counter
increments with their attribute sets. -/
inductive TelemetryEvent
  | spanOpen (name : String)
  | spanAttr (key : String) (value : AttrVal)
  | recordException (errType errMessage : String)
  | histRecord (instrument : String) (value : ℚ) (attrs : List (String × AttrVal))
  | counterAdd (instrument : String) (delta : ℚ) (attrs : List (String × AttrVal))
deriving Repr, DecidableEq

/-- The facade slice of `MonitoringService` state: the `enabled` flag and the
truthiness of the SDK handles the guards test (`self.tracer`,
`self.http_request_duration`, `self.http_requests_total`,
`self.db_query_duration`, `self.user_sessions_counter`). -/
structure MonitoringState where
  enabled : Bool
  tracer : Bool
  http_request_duration : Bool
  http_requests_total : Bool
  db_query_duration : Bool
  user_sessions_counter : Bool
deriving Repr, DecidableEq

/-- `__init__`: `self.enabled = False` and every handle `None`. -/
def initialMonitoring : MonitoringState :=
  { enabled := false, tracer := false, http_request_duration := false,
    http_requests_total := false, db_query_duration := false,
    user_sessions_counter := false }

/-- An exception raised inside a telemetry operation by the third-party SDK. -/
inductive TelemetryError
  | sdkFailure
deriving Repr, DecidableEq

/-- A `try: ... except Exception as e: logger.warning(...)` block around a
telemetry body: a raised exception is swallowed and the block contributes no
events. -/
def catchAndLog (body : Except TelemetryError (List TelemetryEvent)) :
    Except TelemetryError (List TelemetryEvent) :=
  match body with
  | Except.ok evs => Except.ok evs
  | Except.error _ => Except.ok []

/-- `track_custom_event(name, properties)`: no-op guard
`if not self.enabled or not self.tracer: return`, then `try:` open a span
named `name` and set one string attribute per property,
`except: logger.warning`. A `fault = true` models any of the SDK calls in
the `try` block raising. -/
def track_custom_event (s : MonitoringState) (name : String)
    (properties : List (String × String)) (fault : Bool) :
    Except TelemetryError (List TelemetryEvent) :=
  if !s.enabled || !s.tracer then Except.ok []
  else
    catchAndLog
      (if fault then Except.error TelemetryError.sdkFailure
       else Except.ok (TelemetryEvent.spanOpen name ::
         properties.map (fun p => TelemetryEvent.spanAttr p.1 (AttrVal.str p.2))))

/-- `track_database_query(query_name, duration_ms, success)`: no-op guard
`if not self.enabled or not self.db_query_duration: return`, then `try:`
record `duration_ms` into the `db.query.duration` histogram with the query
name and success flag as attributes, `except: logger.warning`. -/
def track_database_query (s : MonitoringState) (query_name : String)
    (duration_ms : ℚ) (success : Bool) (fault : Bool) :
    Except TelemetryError (List TelemetryEvent) :=
  if !s.enabled || !s.db_query_duration then Except.ok []
  else
    catchAndLog
      (if fault then Except.error TelemetryError.sdkFailure
       else Except.ok [TelemetryEvent.histRecord "db.query.duration" duration_ms
         [("db.query.name", AttrVal.str query_name),
          ("db.query.success", AttrVal.boolean success)]])

/-- `user_ip.split(',')[0].strip()` on the forwarded-for header value. -/
def clientIpFirst (addr : String) : String :=
  ((addr.splitOn ",").headD "").trim

/-- `track_user_session(user_id, event_type, properties)`: no-op guard
`if not self.enabled or not self.tracer: return`, then `try:` set identity
attributes on the current span when one exists, open a
`user_session_<event_type>` span with identity/session attributes, the
client IP (its own inner `try` is modelled by `ipFault`) and the custom
properties, and finally increment the `app.user.sessions` counter when that
handle exists; `except: logger.warning`. -/
def track_user_session (s : MonitoringState) (user_id : Nat)
    (event_type : String) (properties : List (String × String))
    (spanPresent : Bool) (ip : Option String) (ipFault : Bool) (fault : Bool) :
    Except TelemetryError (List TelemetryEvent) :=
  if !s.enabled || !s.tracer then Except.ok []
  else
    catchAndLog
      (if fault then Except.error TelemetryError.sdkFailure
       else Except.ok (
        (if spanPresent then
          [TelemetryEvent.spanAttr "enduser.id" (AttrVal.str (toString user_id)),
           TelemetryEvent.spanAttr "user_AuthenticatedId"
             (AttrVal.str (toString user_id))]
         else []) ++
        ([TelemetryEvent.spanOpen ("user_session_" ++ event_type),
          TelemetryEvent.spanAttr "user.id" (AttrVal.str (toString user_id)),
          TelemetryEvent.spanAttr "enduser.id" (AttrVal.str (toString user_id)),
          TelemetryEvent.spanAttr "user_AuthenticatedId"
            (AttrVal.str (toString user_id)),
          TelemetryEvent.spanAttr "session.event" (AttrVal.str event_type)] ++
         (if ipFault then []
          else match ip with
          | some addr => [TelemetryEvent.spanAttr "client.ip"
              (AttrVal.str (clientIpFirst addr))]
          | none => []) ++
         properties.map (fun p => TelemetryEvent.spanAttr p.1 (AttrVal.str p.2))) ++
        (if s.user_sessions_counter then
          [TelemetryEvent.counterAdd "app.user.sessions" 1
            [("session.event", AttrVal.str event_type)]]
         else [])))

/-- A Python application exception, as observed by the error handler
(`type(error).__name__` and `str(error)`). -/
structure AppError where
  errType : String
  message : String
deriving Repr, DecidableEq

/-- `handle_exception(error)` (the `@app.errorhandler(Exception)` hook):
when `self.enabled and self.tracer`, `try:` open an `error_handler` span,
set `error.type` / `error.message` and record the exception, `except: pass`;
in every case finish with `raise error`, re-raising the identical object.
The second component is the call's outcome: always the re-raised error. -/
def handle_exception (s : MonitoringState) (error : AppError) (fault : Bool) :
    List TelemetryEvent × Except AppError Unit :=
  let events :=
    if s.enabled && s.tracer then
      if fault then []
      else [TelemetryEvent.spanOpen "error_handler",
            TelemetryEvent.spanAttr "error.type" (AttrVal.str error.errType),
            TelemetryEvent.spanAttr "error.message" (AttrVal.str error.message),
            TelemetryEvent.recordException error.errType error.message]
    else []
  (events, Except.error error)

/-! ## The `after_request` hook -/

/-- The per-request `flask.g` slots the hooks use: `g.request_start_time`
(set by `before_request`) and `g.user_id` (set for authenticated users). -/
structure GContext where
  request_start_time : Option ℚ
  user_id : Option String
deriving Repr, DecidableEq

/-- The request data `after_request` reads: `request.method` and
`request.endpoint` (which may be `None`). -/
structure RequestInfo where
  method : String
  endpoint : Option String
deriving Repr, DecidableEq

/-- First `try` block of `after_request`: if `g.user_id` is set and the
current span is recording, re-set the two user attributes; any exception is
caught and logged at debug level (`userCtxFault`). -/
def userContextEvents (g : GContext) (spanRecording : Bool)
    (userCtxFault : Bool) : List TelemetryEvent :=
  if userCtxFault then []
  else match g.user_id with
    | some uid =>
        if spanRecording then
          [TelemetryEvent.spanAttr "ai.user.authUserId" (AttrVal.str uid),
           TelemetryEvent.spanAttr "user_id" (AttrVal.str uid)]
        else []
    | none => []

/-- Second `try` block of `after_request`: if `g.request_start_time` exists,
compute `duration_ms = (time.time() - g.request_start_time) * 1000`, record
it into the `http.server.request.duration` histogram with
`{http.method, http.route, http.status_code}` (route falls back to
`"unknown"`), and add 1 to `http.server.requests.total` with
`{http.method, http.status_code}`; any exception is caught and logged
(`metricsFault`). -/
def requestMetricEvents (s : MonitoringState) (g : GContext)
    (req : RequestInfo) (statusCode : Int) (tNow : ℚ)
    (metricsFault : Bool) : List TelemetryEvent :=
  if metricsFault then []
  else match g.request_start_time with
    | some t0 =>
        (if s.http_request_duration then
          [TelemetryEvent.histRecord "http.server.request.duration"
            ((tNow - t0) * 1000)
            [("http.method", AttrVal.str req.method),
             ("http.route", AttrVal.str (req.endpoint.getD "unknown")),
             ("http.status_code", AttrVal.int statusCode)]]
         else []) ++
        (if s.http_requests_total then
          [TelemetryEvent.counterAdd "http.server.requests.total" 1
            [("http.method", AttrVal.str req.method),
             ("http.status_code", AttrVal.int statusCode)]]
         else [])
    | none => []

/-- `after_request(response)`: `if not self.enabled: return response`, then
the user-context `try` block, then the metric-recording `try` block, and
finally `return response` — the response object itself flows through
unchanged on every path. -/
def after_request {Response : Type} (s : MonitoringState) (g : GContext)
    (req : RequestInfo) (statusCode : Int) (tNow : ℚ) (spanRecording : Bool)
    (userCtxFault metricsFault : Bool) (response : Response) :
    List TelemetryEvent × Response :=
  if !s.enabled then ([], response)
  else
    (userContextEvents g spanRecording userCtxFault ++
      requestMetricEvents s g req statusCode tNow metricsFault, response)

/-! ## Observable-gauge callbacks and the flush loop -/

/-- An exception raised by a sampling call (`psutil`, `time.time`, ...). -/
inductive SamplerError
  | failure
deriving Repr, DecidableEq

/-- One observation yielded by a gauge callback (`metrics.Observation`). -/
structure Observation where
  value : ℚ
deriving Repr, DecidableEq

/-- The `try/except` wrapping each gauge-callback generator body: a raised
exception is caught and logged, and the generator yields no observations. -/
def catchLog (body : Except SamplerError (List Observation)) :
    Except SamplerError (List Observation) :=
  match body with
  | Except.ok obs => Except.ok obs
  | Except.error _ => Except.ok []

/-- `_get_cpu_usage`: `try:` sample `psutil.cpu_percent` and yield one
observation of it, `except:` log and yield nothing. The sampler outcome is
the parameter. -/
def _get_cpu_usage (sample : Except SamplerError ℚ) :
    Except SamplerError (List Observation) :=
  catchLog (sample.map (fun v => [Observation.mk v]))

/-- `_get_memory_usage`: same shape over `psutil.virtual_memory().percent`. -/
def _get_memory_usage (sample : Except SamplerError ℚ) :
    Except SamplerError (List Observation) :=
  catchLog (sample.map (fun v => [Observation.mk v]))

/-- `_get_disk_usage`: same shape over `psutil.disk_usage('/').percent`. -/
def _get_disk_usage (sample : Except SamplerError ℚ) :
    Except SamplerError (List Observation) :=
  catchLog (sample.map (fun v => [Observation.mk v]))

/-- The active-users gauge callback (the generator `_get_active_users_count`
with its `try/except`): if the clock read raises, the exception is caught
before the dict is rebuilt, so the state is unchanged and nothing is
yielded; otherwise evict and yield the surviving count. -/
def activeUsersCallback (s : TrackerState)
    (timeNow : Except SamplerError ℚ) :
    TrackerState × Except SamplerError (List Observation) :=
  match timeNow with
  | Except.ok t =>
      ((_get_active_users_count s t).1,
        Except.ok [Observation.mk ((_get_active_users_count s t).2 : ℚ)])
  | Except.error _ => (s, Except.ok [])

/-- One flush of a list of gauge-callback results: observations are
collected in order; an uncaught exception from a callback would abort the
whole flush (this is the channel the per-callback `try/except` protects). -/
def flushGauges :
    List (Except SamplerError (List Observation)) →
    Except SamplerError (List (List Observation))
  | [] => Except.ok []
  | c :: rest =>
      match c with
      | Except.error e => Except.error e
      | Except.ok obs =>
          match flushGauges rest with
          | Except.error e => Except.error e
          | Except.ok rest' => Except.ok (obs :: rest')

/-- The sampler outcomes one flush tick consumes: the three system samplers
and the clock read of the active-users gauge. -/
structure SamplerInput where
  cpu : Except SamplerError ℚ
  mem : Except SamplerError ℚ
  disk : Except SamplerError ℚ
  timeNow : Except SamplerError ℚ
deriving Repr

/-- One flush tick over the service's observable gauges, threading the
active-users tracker state. -/
def flushTick (s : TrackerState) (i : SamplerInput) :
    TrackerState × Except SamplerError (List (List Observation)) :=
  ((activeUsersCallback s i.timeNow).1,
    flushGauges [_get_cpu_usage i.cpu, _get_memory_usage i.mem,
      _get_disk_usage i.disk, (activeUsersCallback s i.timeNow).2])

/-- The periodic flush loop across a sequence of ticks. -/
def flushLoop (s : TrackerState) :
    List SamplerInput →
    TrackerState × List (Except SamplerError (List (List Observation)))
  | [] => (s, [])
  | i :: rest =>
      ((flushLoop (flushTick s i).1 rest).1,
        (flushTick s i).2 :: (flushLoop (flushTick s i).1 rest).2)

/-! ## Metric registry (modelled from the spec) -/

inductive InstrumentKind
  | counter
  | histogram
  | observableGauge
deriving Repr, DecidableEq

/-- Modelled from the spec: a named, typed telemetry source with a name,
description and unit. The repository's `_create_metrics` delegates
registration to the third-party meter SDK, which is not under `src/`, so
the Instrument/registry contract is taken from the specification text. -/
structure Instrument where
  name : String
  description : String
  unit : String
  kind : InstrumentKind
deriving Repr, DecidableEq

inductive RegistryError
  | DuplicateInstrument
  | InvalidArgument
deriving Repr, DecidableEq

/-- Modelled from the spec: the registry owning all instruments; instrument
names are unique within it. -/
structure MetricRegistry where
  instruments : List Instrument
deriving Repr, DecidableEq

/-- Modelled from the spec: registering an instrument fails with
`DuplicateInstrument` when the name is already registered, and leaves the
registry untouched in that case; otherwise the instrument is added. -/
def registerInstrument (r : MetricRegistry) (name description u : String)
    (kind : InstrumentKind) : MetricRegistry × Except RegistryError Unit :=
  if r.instruments.any (fun i => decide (i.name = name)) then
    (r, Except.error RegistryError.DuplicateInstrument)
  else
    ({ instruments := r.instruments ++ [⟨name, description, u, kind⟩] },
      Except.ok ())

/-- Modelled from the spec: `register_counter(name, description, unit)`. -/
def register_counter (r : MetricRegistry) (name description u : String) :
    MetricRegistry × Except RegistryError Unit :=
  registerInstrument r name description u InstrumentKind.counter

/-- Modelled from the spec: `register_histogram(name, description, unit)`. -/
def register_histogram (r : MetricRegistry) (name description u : String) :
    MetricRegistry × Except RegistryError Unit :=
  registerInstrument r name description u InstrumentKind.histogram

/-- Modelled from the spec: `register_observable_gauge(name, description,
unit, callback)` (the callback itself plays no role in duplicate checking). -/
def register_observable_gauge (r : MetricRegistry) (name description u : String) :
    MetricRegistry × Except RegistryError Unit :=
  registerInstrument r name description u InstrumentKind.observableGauge

/-! ### Tracker lemmas -/

theorem active_user_timeout_track (s : TrackerState) (u : UserId)
    (t1 t2 : Timestamp) :
    (_track_user_activity s u t1 t2).active_user_timeout = s.active_user_timeout :=
  rfl

theorem runTrace_nil (s : TrackerState) : runTrace s [] = s := rfl

theorem runTrace_cons (s : TrackerState) (e : UserId × Timestamp)
    (tr : List (UserId × Timestamp)) :
    runTrace s (e :: tr) = runTrace (touch s e.1 e.2) tr := rfl

theorem active_user_timeout_runTrace (s : TrackerState)
    (tr : List (UserId × Timestamp)) :
    (runTrace s tr).active_user_timeout = s.active_user_timeout := by
  induction tr generalizing s with
  | nil => rfl
  | cons e tr ih =>
      rw [runTrace_cons, ih]
      rfl

theorem runTrace_append_single (s : TrackerState)
    (tr : List (UserId × Timestamp)) (e : UserId × Timestamp) :
    runTrace s (tr ++ [e]) = touch (runTrace s tr) e.1 e.2 := by
  simp [runTrace, List.foldl_append]

theorem lastTouch_nil (uid : UserId) : lastTouch [] uid = none := rfl

theorem lastTouch_append_single (tr : List (UserId × Timestamp))
    (u : UserId) (t : Timestamp) (uid : UserId) :
    lastTouch (tr ++ [(u, t)]) uid
      = if u = uid then some t else lastTouch tr uid := by
  simp [lastTouch, List.foldl_append]

theorem lastTouch_mem (tr : List (UserId × Timestamp)) (uid : UserId)
    (τ : Timestamp) (h : lastTouch tr uid = some τ) : (uid, τ) ∈ tr := by
  induction tr using List.reverseRecOn with
  | nil => simp [lastTouch] at h
  | append_singleton tr e ih =>
      obtain ⟨u, t⟩ := e
      rw [lastTouch_append_single] at h
      by_cases hc : u = uid
      · simp only [hc, if_pos rfl] at h
        subst hc
        obtain rfl : t = τ := by injection h
        exact List.mem_append_right _ (List.mem_singleton_self _)
      · rw [if_neg hc] at h
        exact List.mem_append_left _ (ih h)

theorem lastTouch_isSome_of_mem (tr : List (UserId × Timestamp)) (uid : UserId)
    (h : uid ∈ tr.map Prod.fst) : ∃ τ, lastTouch tr uid = some τ := by
  induction tr using List.reverseRecOn with
  | nil => simp at h
  | append_singleton tr e ih =>
      obtain ⟨u, t⟩ := e
      rw [lastTouch_append_single]
      by_cases hc : u = uid
      · exact ⟨t, by rw [if_pos hc]⟩
      · rw [if_neg hc]
        apply ih
        simp only [List.map_append, List.mem_append] at h
        rcases h with h | h
        · exact h
        · simp at h
          exact absurd h.symm hc

theorem dictSet_keys_nodup (m : List (UserId × Timestamp)) (u : UserId)
    (t : Timestamp) (h : (m.map Prod.fst).Nodup) :
    ((dictSet m u t).map Prod.fst).Nodup := by
  unfold dictSet
  split
  · have : (m.map (fun p => if p.1 = u then (u, t) else p)).map Prod.fst
        = m.map Prod.fst := by
      rw [List.map_map]
      apply List.map_congr_left
      intro p _
      by_cases hc : p.1 = u
      · simp [hc]
      · simp [hc]
    rw [this]
    exact h
  · next hany =>
      have hu : u ∉ m.map Prod.fst := by
        intro hmem
        apply hany
        rw [List.any_eq_true]
        obtain ⟨p, hp, hfst⟩ := List.mem_map.mp hmem
        exact ⟨p, hp, by simp [hfst]⟩
      simp only [List.map_append, List.map_cons, List.map_nil]
      rw [List.nodup_append]
      exact ⟨h, List.nodup_singleton _, by simpa using hu⟩

theorem mem_dictSet_self (m : List (UserId × Timestamp)) (u : UserId)
    (t : Timestamp) : (u, t) ∈ dictSet m u t := by
  unfold dictSet
  split
  · next hany =>
      rw [List.any_eq_true] at hany
      obtain ⟨p, hp, hpu⟩ := hany
      rw [decide_eq_true_eq] at hpu
      exact List.mem_map.mpr ⟨p, hp, by rw [if_pos hpu]⟩
  · exact List.mem_append_right _ (List.mem_singleton_self _)

theorem mem_dictSet_key_eq (m : List (UserId × Timestamp)) (u : UserId)
    (t τ : Timestamp) (h : (u, τ) ∈ dictSet m u t) : τ = t := by
  unfold dictSet at h
  split at h
  · obtain ⟨p, _, hpe⟩ := List.mem_map.mp h
    by_cases hc : p.1 = u
    · rw [if_pos hc] at hpe
      injection hpe with h1 h2
      exact h2.symm
    · rw [if_neg hc] at hpe
      exact absurd (congrArg Prod.fst hpe) hc
  · next hany =>
      rcases List.mem_append.mp h with h' | h'
      · exfalso
        apply hany
        rw [List.any_eq_true]
        exact ⟨(u, τ), h', by simp⟩
      · simp at h'
        exact h'

theorem mem_dictSet_ne (m : List (UserId × Timestamp)) (u : UserId)
    (t : Timestamp) (uid : UserId) (τ : Timestamp) (hne : uid ≠ u) :
    (uid, τ) ∈ dictSet m u t ↔ (uid, τ) ∈ m := by
  unfold dictSet
  split
  · constructor
    · intro h
      obtain ⟨p, hp, hpe⟩ := List.mem_map.mp h
      by_cases hc : p.1 = u
      · rw [if_pos hc] at hpe
        exact absurd (congrArg Prod.fst hpe).symm hne
      · rw [if_neg hc] at hpe
        rwa [hpe] at hp
    · intro h
      refine List.mem_map.mpr ⟨(uid, τ), h, ?_⟩
      rw [if_neg (by simpa using hne)]
  · constructor
    · intro h
      rcases List.mem_append.mp h with h' | h'
      · exact h'
      · simp at h'
        exact absurd h'.1 hne
    · intro h
      exact List.mem_append_left _ h

theorem track_active_users_eq (s : TrackerState) (u : UserId)
    (tSet tNow : Timestamp) :
    (_track_user_activity s u tSet tNow).active_users
      = (dictSet s.active_users u tSet).filter
          (fun p => !decide (tNow - p.2 > s.active_user_timeout)) := rfl

/-- Invariant of a run of `touch` events with nondecreasing clock: the dict
has distinct keys, every binding records the most recent touch of its key, and
every identity whose most recent touch is still inside the window of any
instant at or after the whole trace is still bound. -/
theorem runTrace_inv (θ : ℚ) (tr : List (UserId × Timestamp))
    (hmono : (tr.map Prod.snd).Pairwise (· ≤ ·)) :
    (((runTrace (mkTracker θ) tr).active_users.map Prod.fst).Nodup) ∧
    (∀ uid τ, (uid, τ) ∈ (runTrace (mkTracker θ) tr).active_users →
        lastTouch tr uid = some τ) ∧
    (∀ uid τ t, lastTouch tr uid = some τ → (∀ σ ∈ tr.map Prod.snd, σ ≤ t) →
        t - τ ≤ θ → (uid, τ) ∈ (runTrace (mkTracker θ) tr).active_users) := by
  induction tr using List.reverseRecOn with
  | nil =>
      refine ⟨by simp [runTrace, mkTracker], ?_, ?_⟩
      · intro uid τ h
        simp [runTrace, mkTracker] at h
      · intro uid τ t h
        simp [lastTouch] at h
  | append_singleton tr e ih =>
      obtain ⟨u, tnew⟩ := e
      rw [List.map_append, List.pairwise_append] at hmono
      obtain ⟨hm1, _, hm3⟩ := hmono
      have hall : ∀ σ ∈ tr.map Prod.snd, σ ≤ tnew := by
        intro σ hσ
        exact hm3 σ hσ tnew (by simp)
      obtain ⟨ihN, ih2, ih3⟩ := ih hm1
      have hθeq : (runTrace (mkTracker θ) tr).active_user_timeout = θ :=
        active_user_timeout_runTrace (mkTracker θ) tr
      have hstate : (runTrace (mkTracker θ) (tr ++ [(u, tnew)])).active_users
          = (dictSet (runTrace (mkTracker θ) tr).active_users u tnew).filter
              (fun p => !decide (tnew - p.2 > θ)) := by
        rw [runTrace_append_single]
        rw [touch, track_active_users_eq, hθeq]
      refine ⟨?_, ?_, ?_⟩
      · rw [hstate]
        exact ((List.filter_sublist _).map Prod.fst).nodup
          (dictSet_keys_nodup _ u tnew ihN)
      · intro uid τ h
        rw [hstate, List.mem_filter] at h
        obtain ⟨hmem, _⟩ := h
        rw [lastTouch_append_single]
        by_cases hc : u = uid
        · subst hc
          rw [if_pos rfl, mem_dictSet_key_eq _ u tnew τ hmem]
        · rw [if_neg hc]
          exact ih2 uid τ
            ((mem_dictSet_ne _ u tnew uid τ (fun h' => hc h'.symm)).mp hmem)
      · intro uid τ t hlt hle hwin
        have htn : tnew ≤ t := hle tnew (by simp)
        rw [lastTouch_append_single] at hlt
        rw [hstate, List.mem_filter]
        by_cases hc : u = uid
        · rw [if_pos hc] at hlt
          obtain rfl : tnew = τ := by injection hlt
          subst hc
          refine ⟨mem_dictSet_self _ u tnew, ?_⟩
          simp only [Bool.not_eq_true', decide_eq_false_iff_not, not_lt]
          linarith
        · rw [if_neg hc] at hlt
          have hin : (uid, τ) ∈ (runTrace (mkTracker θ) tr).active_users := by
            apply ih3 uid τ tnew hlt hall
            linarith
          refine ⟨(mem_dictSet_ne _ u tnew uid τ (fun h' => hc h'.symm)).mpr hin, ?_⟩
          simp only [Bool.not_eq_true', decide_eq_false_iff_not, not_lt]
          linarith

/-- Windowed cardinality of a run: a count read at an instant `t` at or after
a monotone trace of touches returns the number of distinct identities whose
most recent touch lies within the timeout window ending at `t`. -/
theorem count_eq_activeIds (θ : ℚ) (tr : List (UserId × Timestamp)) (t : ℚ)
    (hmono : (tr.map Prod.snd).Pairwise (· ≤ ·))
    (hle : ∀ σ ∈ tr.map Prod.snd, σ ≤ t) :
    (_get_active_users_count (runTrace (mkTracker θ) tr) t).2
      = (activeIds tr t θ).length := by
  obtain ⟨hN, h2, h3⟩ := runTrace_inv θ tr hmono
  have hθeq : (runTrace (mkTracker θ) tr).active_user_timeout = θ :=
    active_user_timeout_runTrace (mkTracker θ) tr
  have hcount : (_get_active_users_count (runTrace (mkTracker θ) tr) t).2
      = (((runTrace (mkTracker θ) tr).active_users.filter
          (fun p => decide (t - p.2 ≤ θ))).map Prod.fst).length := by
    rw [_get_active_users_count, hθeq]
    simp
  rw [hcount]
  have hAnd : ((((runTrace (mkTracker θ) tr).active_users.filter
      (fun p => decide (t - p.2 ≤ θ))).map Prod.fst)).Nodup :=
    ((List.filter_sublist _).map Prod.fst).nodup hN
  have hBnd : (activeIds tr t θ).Nodup :=
    (List.nodup_dedup _).filter _
  have hmemiff : ∀ uid,
      uid ∈ (((runTrace (mkTracker θ) tr).active_users.filter
        (fun p => decide (t - p.2 ≤ θ))).map Prod.fst)
      ↔ uid ∈ activeIds tr t θ := by
    intro uid
    constructor
    · intro h
      obtain ⟨⟨uid', τ⟩, hpmem, rfl⟩ := List.mem_map.mp h
      rw [List.mem_filter] at hpmem
      obtain ⟨hin, hq⟩ := hpmem
      rw [decide_eq_true_eq] at hq
      have hlt := h2 uid' τ hin
      rw [activeIds, List.mem_filter]
      refine ⟨List.mem_dedup.mpr (List.mem_map.mpr ⟨(uid', τ), lastTouch_mem _ _ _ hlt, rfl⟩), ?_⟩
      rw [hlt]
      exact decide_eq_true hq
    · intro h
      rw [activeIds, List.mem_filter] at h
      obtain ⟨hd, hq⟩ := h
      obtain ⟨τ, hlt⟩ := lastTouch_isSome_of_mem tr uid (List.mem_dedup.mp hd)
      rw [hlt, decide_eq_true_eq] at hq
      have hin := h3 uid τ t hlt hle hq
      exact List.mem_map.mpr ⟨(uid, τ), List.mem_filter.mpr ⟨hin, decide_eq_true hq⟩, rfl⟩
  have hfs : (((runTrace (mkTracker θ) tr).active_users.filter
      (fun p => decide (t - p.2 ≤ θ))).map Prod.fst).toFinset
      = (activeIds tr t θ).toFinset := by
    ext x
    simp only [List.mem_toFinset]
    exact hmemiff x
  calc (((runTrace (mkTracker θ) tr).active_users.filter
          (fun p => decide (t - p.2 ≤ θ))).map Prod.fst).length
      = (((runTrace (mkTracker θ) tr).active_users.filter
          (fun p => decide (t - p.2 ≤ θ))).map Prod.fst).toFinset.card :=
        (List.toFinset_card_of_nodup hAnd).symm
    _ = (activeIds tr t θ).toFinset.card := by rw [hfs]
    _ = (activeIds tr t θ).length := List.toFinset_card_of_nodup hBnd

theorem touch_singleton (θ : ℚ) (uid : UserId) (T : ℚ) (hθ : 0 ≤ θ) :
    (touch (mkTracker θ) uid T).active_users = [(uid, T)] := by
  rw [touch, track_active_users_eq]
  have hset : dictSet (mkTracker θ).active_users uid T = [(uid, T)] := by
    simp [dictSet, mkTracker]
  rw [hset]
  have hto : (mkTracker θ).active_user_timeout = θ := rfl
  rw [hto]
  have hkeep : (T - T > θ) = False := by
    simp only [sub_self, eq_iff_iff, iff_false, not_lt]
    exact hθ
  simp [hkeep]
  exact hθ

theorem dedup_map_const {α : Type} [DecidableEq α] (l : List Timestamp) (a : α)
    (h : l ≠ []) : (l.map (fun _ => a)).dedup = [a] := by
  induction l with
  | nil => exact absurd rfl h
  | cons x l ih =>
      cases l with
      | nil => simp
      | cons y l =>
          rw [List.map_cons, List.dedup_cons_of_mem (by simp)]
          exact ih (by simp)

theorem count_val (s : TrackerState) (t : ℚ) :
    (_get_active_users_count s t).2
      = (s.active_users.filter
          (fun p => decide (t - p.2 ≤ s.active_user_timeout))).length := rfl

theorem count_state (s : TrackerState) (t : ℚ) :
    ((_get_active_users_count s t).1).active_users
      = s.active_users.filter
          (fun p => decide (t - p.2 ≤ s.active_user_timeout)) := rfl

theorem count_timeout (s : TrackerState) (t : ℚ) :
    ((_get_active_users_count s t).1).active_user_timeout
      = s.active_user_timeout := rfl

/-- C1: windowed cardinality of the active-session tracker — for every
monotone sequence of touches, a count read at an instant `t` at or after the
sequence returns exactly the number of distinct identities whose most recent
touch lies within the last `timeout` seconds, and an identity touched at `T`
is counted by a read at `T + timeout - ε` but not by one at
`T + timeout + ε`. -/
theorem active_tracker_windowed_cardinality
    (tr : List (UserId × Timestamp)) (t θ T ε : ℚ) (uid : UserId)
    (hmono : (tr.map Prod.snd).Pairwise (· ≤ ·))
    (hle : ∀ σ ∈ tr.map Prod.snd, σ ≤ t)
    (hθ : 0 ≤ θ) (hε : 0 < ε) :
    (_get_active_users_count (runTrace (mkTracker θ) tr) t).2
      = (activeIds tr t θ).length ∧
    (_get_active_users_count (touch (mkTracker θ) uid T) (T + θ - ε)).2 = 1 ∧
    (_get_active_users_count (touch (mkTracker θ) uid T) (T + θ + ε)).2 = 0 := by
  refine ⟨count_eq_activeIds θ tr t hmono hle, ?_, ?_⟩
  · rw [count_val, touch_singleton θ uid T hθ]
    have hto : (touch (mkTracker θ) uid T).active_user_timeout = θ := rfl
    rw [hto]
    have hin : T + θ - ε - T ≤ θ := by linarith
    simp [hin]
    have hin2 : T + θ ≤ θ + T + ε := by linarith
    simp [hin2]
  · rw [count_val, touch_singleton θ uid T hθ]
    have hto : (touch (mkTracker θ) uid T).active_user_timeout = θ := rfl
    rw [hto]
    have hout : ¬ (T + θ + ε - T ≤ θ) := by
      intro h
      linarith
    simp [hout]
    linarith

/-- C2: lazy-eviction invariant — after a `_track_user_activity` call and
after a `_get_active_users_count` read, no surviving entry is older than the
timeout with respect to the operation's clock read, the returned count counts
only the surviving entries, and a background monitor tick never touches the
map (eviction happens only inside the two tracker operations). -/
theorem active_tracker_lazy_eviction_invariant
    (s : TrackerState) (uid : UserId) (tSet tNow : ℚ)
    (p q : UserId × Timestamp)
    (hp : p ∈ (_track_user_activity s uid tSet tNow).active_users)
    (hq : q ∈ ((_get_active_users_count s tNow).1).active_users) :
    ¬ tNow - p.2 > s.active_user_timeout ∧
    ¬ tNow - q.2 > s.active_user_timeout ∧
    (_get_active_users_count s tNow).2
      = ((_get_active_users_count s tNow).1).active_users.length ∧
    monitor_system_health_tick s = s := by
  refine ⟨?_, ?_, rfl, rfl⟩
  · rw [track_active_users_eq] at hp
    have := (List.mem_filter.mp hp).2
    simpa using this
  · rw [count_state] at hq
    have := (List.mem_filter.mp hq).2
    rw [decide_eq_true_eq] at this
    exact not_lt.mpr this

/-- C3: reads are idempotent — two `_get_active_users_count` reads at the same
instant with no intervening touch return the same count, and the second read
leaves the surviving entries exactly as the first left them. -/
theorem active_users_count_idempotent (s : TrackerState) (t : ℚ) :
    (_get_active_users_count ((_get_active_users_count s t).1) t).2
      = (_get_active_users_count s t).2 ∧
    (_get_active_users_count ((_get_active_users_count s t).1) t).1.active_users
      = (_get_active_users_count s t).1.active_users := by
  have hself : ((_get_active_users_count s t).1).active_users.filter
      (fun p => decide (t - p.2
        ≤ ((_get_active_users_count s t).1).active_user_timeout))
      = ((_get_active_users_count s t).1).active_users := by
    apply List.filter_eq_self.mpr
    intro p hp
    rw [count_timeout]
    rw [count_state] at hp
    exact (List.mem_filter.mp hp).2
  constructor
  · rw [count_val, hself, count_val, count_state]
  · rw [count_state, hself]

/-- C4: touch deduplicates by identity — any number of activity-tracking
calls for one identity leave a single `last_seen` entry, so a count read
whose window still contains the most recent of those touches reports exactly
1 for that identity. -/
theorem touch_deduplicates_identity (uid : UserId) (ts : List ℚ) (t θ : ℚ)
    (hne : ts ≠ []) (hmono : ts.Pairwise (· ≤ ·))
    (hle : ∀ σ ∈ ts, σ ≤ t) (hwin : t - ts.getLast hne ≤ θ) :
    (_get_active_users_count
        (runTrace (mkTracker θ) (ts.map (fun τ => (uid, τ)))) t).2 = 1 := by
  have hsnd : (ts.map (fun τ => (uid, τ))).map Prod.snd = ts := by
    rw [List.map_map]
    simp
  have hfst : (ts.map (fun τ => (uid, τ))).map Prod.fst
      = ts.map (fun _ => uid) := by
    rw [List.map_map]
    rfl
  have hlt : lastTouch (ts.map (fun τ => (uid, τ))) uid
      = some (ts.getLast hne) := by
    conv_lhs => rw [← List.dropLast_append_getLast hne]
    rw [List.map_append, List.map_cons, List.map_nil,
      lastTouch_append_single, if_pos rfl]
  rw [count_eq_activeIds θ _ t (by rw [hsnd]; exact hmono)
    (by rw [hsnd]; exact hle)]
  rw [activeIds, hfst, dedup_map_const ts uid hne]
  rw [List.filter_cons_of_pos]
  · rfl
  · rw [hlt]
    exact decide_eq_true hwin

theorem active_tracker_windowed_cardinality_witness :
    (_get_active_users_count (runTrace (mkTracker 900) [(1, 0), (2, 100)]) 950).2
      = (activeIds [(1, 0), (2, 100)] 950 900).length ∧
    (_get_active_users_count (touch (mkTracker 900) 5 0) (0 + 900 - 1)).2 = 1 ∧
    (_get_active_users_count (touch (mkTracker 900) 5 0) (0 + 900 + 1)).2 = 0 :=
  active_tracker_windowed_cardinality [(1, 0), (2, 100)] 950 900 0 1 5
    (by norm_num [List.pairwise_cons]) (by norm_num) (by norm_num) (by norm_num)

theorem active_tracker_lazy_eviction_invariant_witness :
    (((1:UserId), (0:ℚ)) ∈ (_track_user_activity
        { active_users := [(1, 0)], active_user_timeout := 900 }
        2 10 10).active_users) ∧
    ¬ (10:ℚ) - 0 > (900:ℚ) := by
  have hp : ((1:UserId), (0:ℚ)) ∈ (_track_user_activity
      { active_users := [(1, 0)], active_user_timeout := 900 }
      2 10 10).active_users := by
    norm_num [_track_user_activity, dictSet]
  have hq : ((1:UserId), (0:ℚ)) ∈ ((_get_active_users_count
      { active_users := [(1, 0)], active_user_timeout := 900 } 10).1).active_users := by
    norm_num [_get_active_users_count]
  exact ⟨hp, (active_tracker_lazy_eviction_invariant
    { active_users := [(1, 0)], active_user_timeout := 900 }
    2 10 10 (1, 0) (1, 0) hp hq).1⟩

theorem touch_deduplicates_identity_witness :
    (_get_active_users_count
        (runTrace (mkTracker 900) ([(3:ℚ), 4].map (fun τ => ((1:UserId), τ))))
        900).2 = 1 :=
  touch_deduplicates_identity 1 [3, 4] 900 900 (List.cons_ne_nil _ _)
    (by norm_num [List.pairwise_cons]) (by norm_num)
    (by show (900:ℚ) - 4 ≤ 900; norm_num)

/-! ### Facade, hook, gauge and registry lemmas -/

theorem catchAndLog_ok (body : Except TelemetryError (List TelemetryEvent)) :
    ∃ evs, catchAndLog body = Except.ok evs := by
  cases body with
  | ok evs => exact ⟨evs, rfl⟩
  | error e => exact ⟨[], rfl⟩

theorem track_custom_event_ok (s : MonitoringState) (name : String)
    (properties : List (String × String)) (fault : Bool) :
    ∃ evs, track_custom_event s name properties fault = Except.ok evs := by
  unfold track_custom_event
  split
  · exact ⟨[], rfl⟩
  · exact catchAndLog_ok _

theorem track_database_query_ok (s : MonitoringState) (query_name : String)
    (duration_ms : ℚ) (success fault : Bool) :
    ∃ evs, track_database_query s query_name duration_ms success fault
      = Except.ok evs := by
  unfold track_database_query
  split
  · exact ⟨[], rfl⟩
  · exact catchAndLog_ok _

theorem track_user_session_ok (s : MonitoringState) (user_id : Nat)
    (event_type : String) (properties : List (String × String))
    (spanPresent : Bool) (ip : Option String) (ipFault fault : Bool) :
    ∃ evs, track_user_session s user_id event_type properties spanPresent
      ip ipFault fault = Except.ok evs := by
  unfold track_user_session
  split
  · exact ⟨[], rfl⟩
  · exact catchAndLog_ok _

/-- C5: disabled-mode transparency and error isolation — with the pipeline
initialized without a credential (`enabled = false`) every tracking call
returns `ok` with no telemetry events, and in every state every tracking
call returns `ok` (its `try/except` keeps any SDK exception from reaching
the application). -/
theorem facade_disabled_transparent_and_error_isolated
    (s : MonitoringState) (name query_name event_type : String)
    (properties : List (String × String)) (duration_ms : ℚ)
    (success spanPresent ipFault : Bool) (user_id : Nat) (ip : Option String)
    (f1 f2 f3 : Bool) (hdis : s.enabled = false) :
    track_custom_event s name properties f1 = Except.ok [] ∧
    track_database_query s query_name duration_ms success f2 = Except.ok [] ∧
    track_user_session s user_id event_type properties spanPresent ip ipFault f3
      = Except.ok [] ∧
    (∀ (s' : MonitoringState) (g1 g2 g3 : Bool),
      (∃ evs, track_custom_event s' name properties g1 = Except.ok evs) ∧
      (∃ evs, track_database_query s' query_name duration_ms success g2
        = Except.ok evs) ∧
      (∃ evs, track_user_session s' user_id event_type properties spanPresent
        ip ipFault g3 = Except.ok evs)) := by
  refine ⟨?_, ?_, ?_, ?_⟩
  · simp [track_custom_event, hdis]
  · simp [track_database_query, hdis]
  · simp [track_user_session, hdis]
  · intro s' g1 g2 g3
    exact ⟨track_custom_event_ok s' name properties g1,
      track_database_query_ok s' query_name duration_ms success g2,
      track_user_session_ok s' user_id event_type properties spanPresent
        ip ipFault g3⟩

theorem facade_disabled_transparent_and_error_isolated_witness :
    track_custom_event initialMonitoring "payment_processed" [("amount", "10")]
      false = Except.ok [] ∧
    (∃ evs, track_custom_event
        { enabled := true, tracer := true, http_request_duration := true,
          http_requests_total := true, db_query_duration := true,
          user_sessions_counter := true }
        "payment_processed" [("amount", "10")] true = Except.ok evs) := by
  have h := facade_disabled_transparent_and_error_isolated initialMonitoring
    "payment_processed" "get_users" "login" [("amount", "10")] 5 true true
    false 7 none false false false rfl
  exact ⟨h.1, (h.2.2.2
    { enabled := true, tracer := true, http_request_duration := true,
      http_requests_total := true, db_query_duration := true,
      user_sessions_counter := true } true true true).1⟩

/-- C6: error pass-through — `handle_exception` re-raises the identical
error object in every pipeline state, and when the pipeline is enabled
(and its span recording does not itself fail) it first records the error's
type and message on an `error_handler` span. -/
theorem handle_exception_reraises_identically
    (s : MonitoringState) (error : AppError) (fault : Bool)
    (h1 : s.enabled = true) (h2 : s.tracer = true) (h3 : fault = false) :
    (∀ (s' : MonitoringState) (f' : Bool),
      (handle_exception s' error f').2 = Except.error error) ∧
    (handle_exception s error fault).1
      = [TelemetryEvent.spanOpen "error_handler",
         TelemetryEvent.spanAttr "error.type" (AttrVal.str error.errType),
         TelemetryEvent.spanAttr "error.message" (AttrVal.str error.message),
         TelemetryEvent.recordException error.errType error.message] := by
  constructor
  · intro s' f'
    rfl
  · simp [handle_exception, h1, h2, h3]

theorem handle_exception_reraises_identically_witness :
    (handle_exception initialMonitoring
        { errType := "ValueError", message := "boom" } true).2
      = Except.error { errType := "ValueError", message := "boom" } ∧
    (handle_exception
        { enabled := true, tracer := true, http_request_duration := false,
          http_requests_total := false, db_query_duration := false,
          user_sessions_counter := false }
        { errType := "ValueError", message := "boom" } false).1
      = [TelemetryEvent.spanOpen "error_handler",
         TelemetryEvent.spanAttr "error.type" (AttrVal.str "ValueError"),
         TelemetryEvent.spanAttr "error.message" (AttrVal.str "boom"),
         TelemetryEvent.recordException "ValueError" "boom"] := by
  have h := handle_exception_reraises_identically
    { enabled := true, tracer := true, http_request_duration := false,
      http_requests_total := false, db_query_duration := false,
      user_sessions_counter := false }
    { errType := "ValueError", message := "boom" } false rfl rfl rfl
  exact ⟨h.1 initialMonitoring true, h.2⟩

theorem catchLog_ok (body : Except SamplerError (List Observation)) :
    ∃ obs, catchLog body = Except.ok obs := by
  cases body with
  | ok obs => exact ⟨obs, rfl⟩
  | error e => exact ⟨[], rfl⟩

theorem activeUsersCallback_ok (s : TrackerState)
    (timeNow : Except SamplerError ℚ) :
    ∃ obs, (activeUsersCallback s timeNow).2 = Except.ok obs := by
  cases timeNow with
  | ok t => exact ⟨_, rfl⟩
  | error e => exact ⟨[], rfl⟩

theorem flushGauges_ok (cbs : List (Except SamplerError (List Observation)))
    (h : ∀ c ∈ cbs, ∃ obs, c = Except.ok obs) :
    ∃ out, flushGauges cbs = Except.ok out := by
  induction cbs with
  | nil => exact ⟨[], rfl⟩
  | cons c rest ih =>
      obtain ⟨obs, rfl⟩ := h c (List.mem_cons_self _ _)
      obtain ⟨out, hout⟩ := ih (fun x hx => h x (List.mem_cons_of_mem _ hx))
      exact ⟨obs :: out, by simp [flushGauges, hout]⟩

theorem flushTick_ok (s : TrackerState) (i : SamplerInput) :
    ∃ out, (flushTick s i).2 = Except.ok out := by
  apply flushGauges_ok
  intro c hc
  simp only [List.mem_cons, List.not_mem_nil, or_false] at hc
  rcases hc with rfl | rfl | rfl | rfl
  · exact catchLog_ok _
  · exact catchLog_ok _
  · exact catchLog_ok _
  · exact activeUsersCallback_ok s i.timeNow

theorem flushLoop_ticks_ok (inputs : List SamplerInput) (s : TrackerState)
    (r : Except SamplerError (List (List Observation)))
    (hr : r ∈ (flushLoop s inputs).2) : ∃ out, r = Except.ok out := by
  induction inputs generalizing s with
  | nil => simp [flushLoop] at hr
  | cons i rest ih =>
      have hr' : r = (flushTick s i).2 ∨
          r ∈ (flushLoop (flushTick s i).1 rest).2 := by
        simpa [flushLoop] using hr
      rcases hr' with rfl | hr'
      · exact flushTick_ok s i
      · exact ih _ hr'

/-- C7: gauge-callback failure isolation — a raising sampler makes the gauge
callback yield zero observations instead of an exception, a flush tick with
a broken CPU gauge still exports every other instrument's observations, and
every tick of the flush loop completes without an exception whatever the
samplers do. -/
theorem gauge_callback_failure_isolation
    (e : SamplerError) (s : TrackerState) (mv dv tv : ℚ)
    (inputs : List SamplerInput)
    (r : Except SamplerError (List (List Observation)))
    (hr : r ∈ (flushLoop s inputs).2) :
    _get_cpu_usage (Except.error e) = Except.ok [] ∧
    _get_memory_usage (Except.error e) = Except.ok [] ∧
    _get_disk_usage (Except.error e) = Except.ok [] ∧
    (activeUsersCallback s (Except.error e)).2 = Except.ok [] ∧
    (activeUsersCallback s (Except.error e)).1 = s ∧
    (flushTick s (SamplerInput.mk (Except.error e) (Except.ok mv)
        (Except.ok dv) (Except.ok tv))).2
      = Except.ok [[], [Observation.mk mv], [Observation.mk dv],
          [Observation.mk ((_get_active_users_count s tv).2 : ℚ)]] ∧
    (∃ out, r = Except.ok out) := by
  exact ⟨rfl, rfl, rfl, rfl, rfl, rfl, flushLoop_ticks_ok inputs s r hr⟩

theorem gauge_callback_failure_isolation_witness :
    _get_cpu_usage (Except.error SamplerError.failure) = Except.ok [] ∧
    ((flushTick initialTracker (SamplerInput.mk
        (Except.error SamplerError.failure) (Except.ok 35)
        (Except.ok 60) (Except.ok 0))).2
      ∈ (flushLoop initialTracker [SamplerInput.mk
          (Except.error SamplerError.failure) (Except.ok 35)
          (Except.ok 60) (Except.ok 0)]).2) ∧
    (∃ out, (flushTick initialTracker (SamplerInput.mk
        (Except.error SamplerError.failure) (Except.ok 35)
        (Except.ok 60) (Except.ok 0))).2
      = Except.ok out) := by
  have hr : (flushTick initialTracker (SamplerInput.mk
      (Except.error SamplerError.failure) (Except.ok 35)
      (Except.ok 60) (Except.ok 0))).2
      ∈ (flushLoop initialTracker [SamplerInput.mk
          (Except.error SamplerError.failure) (Except.ok 35)
          (Except.ok 60) (Except.ok 0)]).2 := by
    simp [flushLoop]
  have h := gauge_callback_failure_isolation SamplerError.failure
    initialTracker 35 60 0
    [SamplerInput.mk (Except.error SamplerError.failure) (Except.ok 35)
      (Except.ok 60) (Except.ok 0)] _ hr
  exact ⟨h.1, hr, h.2.2.2.2.2.2⟩

/-- C8: request-end recording — with the pipeline enabled, a captured start
time and both HTTP instruments present, a fault-free `after_request` records
`(now - start) * 1000` milliseconds into the request-duration histogram with
method/route/status attributes and adds 1 to the requests-total counter with
method/status attributes, after the user-context block's events. -/
theorem after_request_records_duration_and_count
    {Response : Type} (s : MonitoringState) (g : GContext) (req : RequestInfo)
    (statusCode : Int) (t0 tNow : ℚ) (spanRecording userCtxFault : Bool)
    (response : Response)
    (h1 : s.enabled = true) (h2 : s.http_request_duration = true)
    (h3 : s.http_requests_total = true) (h4 : g.request_start_time = some t0) :
    (after_request s g req statusCode tNow spanRecording userCtxFault false
        response).1
      = userContextEvents g spanRecording userCtxFault ++
        [TelemetryEvent.histRecord "http.server.request.duration"
          ((tNow - t0) * 1000)
          [("http.method", AttrVal.str req.method),
           ("http.route", AttrVal.str (req.endpoint.getD "unknown")),
           ("http.status_code", AttrVal.int statusCode)],
         TelemetryEvent.counterAdd "http.server.requests.total" 1
          [("http.method", AttrVal.str req.method),
           ("http.status_code", AttrVal.int statusCode)]] := by
  simp [after_request, requestMetricEvents, h1, h2, h3, h4]

theorem after_request_records_duration_and_count_witness :
    (after_request
        { enabled := true, tracer := true, http_request_duration := true,
          http_requests_total := true, db_query_duration := true,
          user_sessions_counter := true }
        { request_start_time := some 2, user_id := none }
        { method := "GET", endpoint := some "index" }
        200 5 false false false "resp").1
      = userContextEvents { request_start_time := some 2, user_id := none }
          false false ++
        [TelemetryEvent.histRecord "http.server.request.duration" ((5 - 2) * 1000)
          [("http.method", AttrVal.str "GET"),
           ("http.route", AttrVal.str "index"),
           ("http.status_code", AttrVal.int 200)],
         TelemetryEvent.counterAdd "http.server.requests.total" 1
          [("http.method", AttrVal.str "GET"),
           ("http.status_code", AttrVal.int 200)]] :=
  after_request_records_duration_and_count
    { enabled := true, tracer := true, http_request_duration := true,
      http_requests_total := true, db_query_duration := true,
      user_sessions_counter := true }
    { request_start_time := some 2, user_id := none }
    { method := "GET", endpoint := some "index" }
    200 2 5 false false "resp" rfl rfl rfl rfl

/-- C9: duplicate-instrument rejection (modelled from the spec, as the
registry lives in the third-party meter SDK) — registering a counter,
histogram or observable gauge under an already-registered name fails with
`DuplicateInstrument` and returns the registry unchanged. -/
theorem register_duplicate_instrument_rejected
    (r : MetricRegistry) (name description u : String)
    (h : name ∈ r.instruments.map Instrument.name) :
    register_counter r name description u
      = (r, Except.error RegistryError.DuplicateInstrument) ∧
    register_histogram r name description u
      = (r, Except.error RegistryError.DuplicateInstrument) ∧
    register_observable_gauge r name description u
      = (r, Except.error RegistryError.DuplicateInstrument) := by
  have hany : r.instruments.any (fun i => decide (i.name = name)) = true := by
    rw [List.any_eq_true]
    obtain ⟨i, hi, hname⟩ := List.mem_map.mp h
    exact ⟨i, hi, by simp [hname]⟩
  refine ⟨?_, ?_, ?_⟩ <;>
    simp [register_counter, register_histogram, register_observable_gauge,
      registerInstrument, hany]

theorem register_duplicate_instrument_rejected_witness :
    ("http.server.requests.total" ∈ (MetricRegistry.mk
        [{ name := "http.server.requests.total",
           description := "Total number of HTTP requests", unit := "1",
           kind := InstrumentKind.counter }]).instruments.map Instrument.name) ∧
    register_counter (MetricRegistry.mk
        [{ name := "http.server.requests.total",
           description := "Total number of HTTP requests", unit := "1",
           kind := InstrumentKind.counter }])
        "http.server.requests.total" "dup" "1"
      = (MetricRegistry.mk
          [{ name := "http.server.requests.total",
             description := "Total number of HTTP requests", unit := "1",
             kind := InstrumentKind.counter }],
         Except.error RegistryError.DuplicateInstrument) := by
  have h : "http.server.requests.total" ∈ (MetricRegistry.mk
      [{ name := "http.server.requests.total",
         description := "Total number of HTTP requests", unit := "1",
         kind := InstrumentKind.counter }]).instruments.map Instrument.name := by
    simp
  exact ⟨h, (register_duplicate_instrument_rejected _
    "http.server.requests.total" "dup" "1" h).1⟩

/-- C10: frame effect of `after_request` — on every exit path (disabled
pipeline, missing start time, user-context or metric-recording fault) the
hook returns exactly the response object it was passed. -/
theorem after_request_returns_response_unchanged
    {Response : Type} (s : MonitoringState) (g : GContext) (req : RequestInfo)
    (statusCode : Int) (tNow : ℚ)
    (spanRecording userCtxFault metricsFault : Bool) (response : Response) :
    (after_request s g req statusCode tNow spanRecording userCtxFault
        metricsFault response).2 = response := by
  unfold after_request
  split <;> rfl
